import Mathlib

/-!
Shallow embedding of the `frankenthought-chat` repository
(`src/frankenthought-chat.py` and `src/multi-chat.py`).

Remote backends are modelled as oracles inside an `Env` record: each network
call is a function from the request to `Except String String`, where
`Except.error e` stands for a raised exception with message `e` and
`Except.ok t` for a successful reply `t`.  A client that failed to
initialize (`gemini_model = None`, `openai_client = None`,
`openrouter_client = None` in the Python source) is modelled by a `false`
availability flag, respectively a `none` client value, so an unavailable
backend carries no oracle at all and structurally cannot perform network
calls.  Python exceptions caught by `try/except` blocks become pattern
matches on `Except`; `send_message`-style mutation of the lazily created
Gemini chat session becomes explicit state passing.
-/

namespace FrankenThought

/-- A chat message dictionary of the Python source: a role
(the source uses the literal strings "user", "assistant", "system")
and a content string. -/
structure Msg where
  role : String
  content : String
deriving DecidableEq, Repr

/-- The lazily created Gemini chat session
(`get_gemini_response.chat` in frankenthought-chat.py,
`chat_with_model.gemini_chat` in multi-chat.py): its memory is the list of
messages successfully sent into the session, in order.  The Python
attribute being absent is modelled as `Option.none` at the use sites. -/
structure GeminiChat where
  sent : List String
deriving DecidableEq, Repr

/-- The process environment fixed at startup: availability of each client
(lines 30-56 of both sources) and the behaviour of the remote endpoints.
`gemini_send mem msg` is the outcome of `chat.send_message msg` on a session
whose memory is `mem`; on an error the session memory is unchanged.
`openai_client` / `openrouter_client` are `none` when initialization
failed, otherwise they carry the behaviour of
`client.chat.completions.create(model, messages)`. -/
structure Env where
  gemini_model : Bool
  gemini_send : List String → String → Except String String
  openai_client : Option (String → List Msg → Except String String)
  openrouter_client : Option (String → List Msg → Except String String)
  now : String

/-- The mutable module state of either script: the shared `chat_history`
list and the optional Gemini session attribute. -/
structure ChatState where
  chat_history : List Msg
  gemini_chat : Option GeminiChat
deriving DecidableEq, Repr

/-- Model identifier `MODELS["o1"]` of frankenthought-chat.py. -/
def MODELS_o1 : String := "o1"

/-- Model identifier `MODELS["deepseek"]` of frankenthought-chat.py. -/
def MODELS_deepseek : String := "deepseek/deepseek-r1"

/-- Model identifier `MODELS["qwen"]` of frankenthought-chat.py. -/
def MODELS_qwen : String := "qwen/qwq-32b-preview"

/-- The seeding loop of the Gemini branch (frankenthought-chat.py lines
98-100, multi-chat.py lines 117-119): replay every user turn of
`chat_history` through `send mem`, discarding replies, accumulating the
session memory; stops with the raised message if a replay send fails. -/
def replayUsers (send : List String → String → Except String String) :
    List Msg → List String → List String × Option String
  | [], mem => (mem, none)
  | m :: rest, mem =>
    if m.role == "user" then
      match send mem m.content with
      | Except.ok _ => replayUsers send rest (mem ++ [m.content])
      | Except.error e => (mem, some e)
    else
      replayUsers send rest mem

/-- Embedding of `get_gemini_response` (frankenthought-chat.py lines
91-106).  Returns the response text together with the updated module state:
unavailable model short-circuits; a missing session is created and seeded
from the current history before the actual send; any raised error is
caught and rendered as `"Gemini Error: <message>"`. -/
def get_gemini_response (env : Env) (st : ChatState) (message : String) :
    String × ChatState :=
  if env.gemini_model = false then
    ("Gemini model not available", st)
  else
    match st.gemini_chat with
    | some chat =>
      match env.gemini_send chat.sent message with
      | Except.ok t => (t, { st with gemini_chat := some ⟨chat.sent ++ [message]⟩ })
      | Except.error e => ("Gemini Error: " ++ e, st)
    | none =>
      match replayUsers env.gemini_send st.chat_history [] with
      | (mem, some e) => ("Gemini Error: " ++ e, { st with gemini_chat := some ⟨mem⟩ })
      | (mem, none) =>
        match env.gemini_send mem message with
        | Except.ok t => (t, { st with gemini_chat := some ⟨mem ++ [message]⟩ })
        | Except.error e => ("Gemini Error: " ++ e, { st with gemini_chat := some ⟨mem⟩ })

/-- The request message list built by the stateless adapters
(frankenthought-chat.py lines 114-116, multi-chat.py lines 94-96): a fixed
system preamble, the entire shared history, then the new user message. -/
def build_messages (chat_history : List Msg) (message : String) : List Msg :=
  ⟨"system", "You are a helpful AI assistant."⟩ :: (chat_history ++ [⟨"user", message⟩])

/-- Embedding of `get_openai_response` (frankenthought-chat.py lines
108-124): a `none` client returns the fixed `"<model> client not
available"` marker without consulting any oracle; a raised error is caught
and rendered as `"<model> Error: <message>"`. -/
def get_openai_response
    (client : Option (String → List Msg → Except String String))
    (model : String) (message : String) (chat_history : List Msg) : String :=
  match client with
  | none => model ++ " client not available"
  | some create =>
    match create model (build_messages chat_history message) with
    | Except.ok content => content
    | Except.error e => model ++ " Error: " ++ e

/-- The composite synthesis prompt of `synthesize_responses`
(frankenthought-chat.py lines 131-147), embedding the literal user message
and the four backend responses verbatim. -/
def synthesis_prompt (user_message gemini deepseek qwen o1 : String) : String :=
  "As an AI synthesizer, analyze these AI responses to the user\x27s message and create a comprehensive, accurate response that combines the best insights from all sources.\n\nUser\x27s Message: " ++
  user_message ++
  "\n\nResponses from different AI models:\nModel 1: " ++ gemini ++
  "\nModel 2: " ++ deepseek ++
  "\nModel 3: " ++ qwen ++
  "\nModel 4: " ++ o1 ++
  "\n\nCreate a well-structured response that:\n1. Combines the unique insights from each model\n2. Resolves any contradictions between the responses\n3. Provides the most accurate and helpful information\n4. Maintains a natural, conversational tone\n\n"

/-- Embedding of `synthesize_responses` (frankenthought-chat.py lines
126-161): unavailable OpenAI client yields the fixed "cannot synthesize"
text; a raised error is caught and rendered as
`"Synthesis Error: <message>"`. -/
def synthesize_responses (env : Env)
    (user_message gemini deepseek qwen o1 : String) : String :=
  match env.openai_client with
  | none => "Cannot synthesize: OpenAI O1 not available"
  | some create =>
    match create MODELS_o1
        [⟨"system", "You are an expert AI response synthesizer."⟩,
         ⟨"user", synthesis_prompt user_message gemini deepseek qwen o1⟩] with
    | Except.ok content => content
    | Except.error e => "Synthesis Error: " ++ e

/-- The values of the four dispatch tasks created in `process_message`
(frankenthought-chat.py lines 166-171), in task order: gemini, deepseek,
qwen, o1. -/
def dispatch_tasks (env : Env) (st : ChatState) (message : String) : List String :=
  [(get_gemini_response env st message).1,
   get_openai_response env.openrouter_client MODELS_deepseek message st.chat_history,
   get_openai_response env.openrouter_client MODELS_qwen message st.chat_history,
   get_openai_response env.openai_client MODELS_o1 message st.chat_history]

/-- The fixed key order of the `responses` dictionary built in
`process_message` (frankenthought-chat.py lines 175-180). -/
def backend_ids : List String := ["gemini", "deepseek", "qwen", "o1"]

/-- The joined `responses` mapping of `process_message` together with the
updated module state (only the gemini task mutates state). -/
def dispatch (env : Env) (st : ChatState) (message : String) :
    List (String × String) × ChatState :=
  (List.zip backend_ids (dispatch_tasks env st message),
   (get_gemini_response env st message).2)

/-- Completion events of a round of concurrent tasks: `results` are the
task values indexed by task position, `order` is the order in which the
scheduler happens to complete them.  Each completion delivers the pair of
its task index and its value. -/
def completeInOrder (results : List String) (order : List Nat) : List (Nat × String) :=
  order.filterMap fun i => (results.get? i).map fun r => (i, r)

/-- Model of the `asyncio.gather` barrier join (frankenthought-chat.py
line 173): after all completions have been collected, the joined result
lists every task's value by task index, whatever the completion order. -/
def gatherJoin (results : List String) (order : List Nat) : List (Option String) :=
  (List.range results.length).map fun i => (completeInOrder results order).lookup i

/-- A JSON value, standing for the parsed content of the chat log file.
The textual serialization performed by the external `json` library
(spec section 6 treats file mechanics as an external collaborator) is not
re-modelled; a file is `Option Json`, `none` when absent. -/
inductive Json where
  | str : String → Json
  | obj : List (String × Json) → Json
  | arr : List Json → Json
deriving Repr

/-- A persisted chat log entry (frankenthought-chat.py lines 198-203). -/
structure ChatLogEntry where
  timestamp : String
  user_message : String
  model_responses : List (String × String)
  final_response : String
deriving DecidableEq, Repr

/-- JSON encoding of the `model_responses` mapping of a log entry. -/
def encodeResponses (rs : List (String × String)) : List (String × Json) :=
  rs.map fun p => (p.1, Json.str p.2)

/-- Decoding of a `model_responses` JSON object back to string pairs. -/
def decodeResponses : List (String × Json) → Option (List (String × String))
  | [] => some []
  | (k, Json.str v) :: rest => (decodeResponses rest).map fun t => (k, v) :: t
  | _ => none

/-- JSON encoding of one chat log entry, with the field order used by
`process_message` (frankenthought-chat.py lines 198-203). -/
def encodeEntry (e : ChatLogEntry) : Json :=
  Json.obj [("timestamp", Json.str e.timestamp),
            ("user_message", Json.str e.user_message),
            ("model_responses", Json.obj (encodeResponses e.model_responses)),
            ("final_response", Json.str e.final_response)]

/-- Decoding of one chat log entry. -/
def decodeEntry : Json → Option ChatLogEntry
  | Json.obj [("timestamp", Json.str t), ("user_message", Json.str u),
              ("model_responses", Json.obj ms), ("final_response", Json.str f)] =>
    (decodeResponses ms).map fun rs => ⟨t, u, rs, f⟩
  | _ => none

/-- Decoding of a list of chat log entries. -/
def decodeEntries : List Json → Option (List ChatLogEntry)
  | [] => some []
  | j :: rest =>
    match decodeEntry j with
    | none => none
    | some e => (decodeEntries rest).map fun t => e :: t

/-- JSON encoding of the whole chat log. -/
def encodeLog (log : List ChatLogEntry) : Json :=
  Json.arr (log.map encodeEntry)

/-- Decoding of the whole chat log from a JSON value. -/
def decodeLog : Json → Option (List ChatLogEntry)
  | Json.arr xs => decodeEntries xs
  | _ => none

/-- Embedding of `load_chat_log` (frankenthought-chat.py lines 74-82):
a missing file or a file that does not parse as a log yields `[]`. -/
def load_chat_log (file : Option Json) : List ChatLogEntry :=
  match file with
  | none => []
  | some j => (decodeLog j).getD []

/-- Embedding of `save_chat_log` (frankenthought-chat.py lines 84-89):
the file is rewritten whole with the serialization of the given log; the
previous file content is not consulted. -/
def save_chat_log (log : List ChatLogEntry) : Option Json :=
  some (encodeLog log)

/-- The outcome of one `process_message` call: the synthesized display
text, the updated module state, the rewritten log file, and the joined
per-backend `responses` mapping (exposed for logging). -/
structure PMResult where
  final_response : String
  state : ChatState
  file : Option Json
  responses : List (String × String)

/-- Embedding of `process_message` (frankenthought-chat.py lines 163-206):
dispatch to the four backends, synthesize, append the user and assistant
turns to the history, and rewrite the log file with the new entry
appended. -/
def process_message (env : Env) (st : ChatState) (file : Option Json)
    (message : String) : PMResult :=
  let g := get_gemini_response env st message
  let r_deepseek := get_openai_response env.openrouter_client MODELS_deepseek message st.chat_history
  let r_qwen := get_openai_response env.openrouter_client MODELS_qwen message st.chat_history
  let r_o1 := get_openai_response env.openai_client MODELS_o1 message st.chat_history
  let responses : List (String × String) :=
    [("gemini", g.1), ("deepseek", r_deepseek), ("qwen", r_qwen), ("o1", r_o1)]
  let final_response := synthesize_responses env message g.1 r_deepseek r_qwen r_o1
  let st1 : ChatState :=
    { g.2 with chat_history := g.2.chat_history ++
        [⟨"user", message⟩, ⟨"assistant", final_response⟩] }
  let chat_log := load_chat_log file
  let entry : ChatLogEntry :=
    { timestamp := env.now, user_message := message,
      model_responses := [("Model 1", g.1), ("Model 2", r_deepseek),
                          ("Model 3", r_qwen), ("Model 4", r_o1)],
      final_response := final_response }
  { final_response := final_response, state := st1,
    file := save_chat_log (chat_log ++ [entry]), responses := responses }

/-- Embedding of the `--clear` command of both main loops
(frankenthought-chat.py lines 225-229, multi-chat.py lines 171-176):
`chat_history.clear()` plus deleting the Gemini session attribute when
present.  The availability flags live in `Env`, which `clear` does not
receive, so availability is untouched by construction. -/
def clear_command (_st : ChatState) : ChatState :=
  { chat_history := [], gemini_chat := none }

/-- Embedding of `send_openai_message` (multi-chat.py lines 92-104); the
call sites guarantee a non-`None` client, so the oracle is passed
directly.  A raised error is caught and rendered as `"Error: <message>"`
with no model prefix. -/
def send_openai_message (create : String → List Msg → Except String String)
    (model : String) (message : String) (chat_history : List Msg) : String :=
  match create model (build_messages chat_history message) with
  | Except.ok content => content
  | Except.error e => "Error: " ++ e

/-- Embedding of `chat_with_model` (multi-chat.py lines 106-141).  An
invalid model number raises `KeyError` at the `MODELS[model_choice]`
lookup, caught as `"Error: <key>"`.  The Gemini branch seeds the lazily
created session and appends to history only on a successful send; the
OpenAI / OpenRouter branches delegate to `send_openai_message` (which
never raises) and always append; an unavailable selected backend returns
the fixed marker without touching history. -/
def chat_with_model (env : Env) (st : ChatState) (model_choice : Nat)
    (message : String) : String × ChatState :=
  if ¬ (model_choice = 1 ∨ model_choice = 2 ∨ model_choice = 3 ∨ model_choice = 4) then
    ("Error: " ++ toString model_choice, st)
  else if model_choice = 1 ∧ env.gemini_model = true then
    match st.gemini_chat with
    | none =>
      match replayUsers env.gemini_send st.chat_history [] with
      | (mem, some e) => ("Error: " ++ e, { st with gemini_chat := some ⟨mem⟩ })
      | (mem, none) =>
        match env.gemini_send mem message with
        | Except.error e => ("Error: " ++ e, { st with gemini_chat := some ⟨mem⟩ })
        | Except.ok t =>
          (t, { chat_history := st.chat_history ++ [⟨"user", message⟩, ⟨"assistant", t⟩],
                gemini_chat := some ⟨mem ++ [message]⟩ })
    | some c =>
      match env.gemini_send c.sent message with
      | Except.error e => ("Error: " ++ e, st)
      | Except.ok t =>
        (t, { chat_history := st.chat_history ++ [⟨"user", message⟩, ⟨"assistant", t⟩],
              gemini_chat := some ⟨c.sent ++ [message]⟩ })
  else if model_choice = 2 then
    match env.openai_client with
    | some create =>
      let response := send_openai_message create "o1" message st.chat_history
      (response, { st with chat_history :=
        st.chat_history ++ [⟨"user", message⟩, ⟨"assistant", response⟩] })
    | none => ("Selected model is not available.", st)
  else if model_choice = 3 ∨ model_choice = 4 then
    match env.openrouter_client with
    | some create =>
      let model_id := if model_choice = 3 then "deepseek/deepseek-r1" else "qwen/qwq-32b-preview"
      let response := send_openai_message create model_id message st.chat_history
      (response, { st with chat_history :=
        st.chat_history ++ [⟨"user", message⟩, ⟨"assistant", response⟩] })
    | none => ("Selected model is not available.", st)
  else
    ("Selected model is not available.", st)

/-- Runner for a sequence of all-parallel exchanges: folds
`process_message` over a list of user messages, threading state and log
file. -/
def run_pm (env : Env) : List String → ChatState × Option Json → ChatState × Option Json
  | [], s => s
  | m :: rest, (st, file) =>
    let r := process_message env st file m
    run_pm env rest (r.state, r.file)

/-- Runner for a sequence of single-select exchanges: folds
`chat_with_model` over a list of (model choice, message) pairs. -/
def run_mc (env : Env) : List (Nat × String) → ChatState → ChatState
  | [], st => st
  | (c, m) :: rest, st => run_mc env rest (chat_with_model env st c m).2

/-- Number of successful exchanges in a single-select run: the steps that
actually appended to the history. -/
def count_mc_success (env : Env) : List (Nat × String) → ChatState → Nat
  | [], _ => 0
  | (c, m) :: rest, st =>
    let st2 := (chat_with_model env st c m).2
    (if st2.chat_history = st.chat_history then 0 else 1) + count_mc_success env rest st2

/-- The user turn contents of a history, in order: exactly what the Gemini
seeding loop replays when every send succeeds. -/
def user_contents (hist : List Msg) : List String :=
  (hist.filter fun m => m.role == "user").map Msg.content

/-- The role sequence of k complete exchanges:
user, assistant, user, assistant, ... -/
def alternating_roles : Nat → List String
  | 0 => []
  | k + 1 => "user" :: "assistant" :: alternating_roles k

/-- A concrete environment where every client initialized and every call
succeeds with a canned reply. -/
def env0 : Env :=
  { gemini_model := true,
    gemini_send := fun _ _ => Except.ok "g-reply",
    openai_client := some fun _ _ => Except.ok "a-reply",
    openrouter_client := some fun _ _ => Except.ok "r-reply",
    now := "t0" }

/-- A concrete environment where every call raises with message "boom". -/
def env_err : Env :=
  { gemini_model := true,
    gemini_send := fun _ _ => Except.error "boom",
    openai_client := some fun _ _ => Except.error "boom",
    openrouter_client := some fun _ _ => Except.error "boom",
    now := "t0" }

/-- A concrete environment where only the OpenAI client failed to
initialize. -/
def env_noopenai : Env :=
  { gemini_model := true,
    gemini_send := fun _ _ => Except.ok "g-reply",
    openai_client := none,
    openrouter_client := some fun _ _ => Except.ok "r-reply",
    now := "t0" }

/-- A concrete environment where every client failed to initialize. -/
def env_down : Env :=
  { gemini_model := false,
    gemini_send := fun _ _ => Except.error "unreachable",
    openai_client := none,
    openrouter_client := none,
    now := "t0" }

/-- A concrete mixed environment: Gemini and OpenRouter unavailable,
OpenAI available and answering "four". -/
def env_mixed : Env :=
  { gemini_model := false,
    gemini_send := fun _ _ => Except.error "unreachable",
    openai_client := some fun _ _ => Except.ok "four",
    openrouter_client := none,
    now := "t0" }

/-- The fresh module state: empty history, no Gemini session. -/
def st0 : ChatState := { chat_history := [], gemini_chat := none }

/-- A concrete state with one completed exchange in the history and no
Gemini session. -/
def st1 : ChatState :=
  { chat_history := [⟨"user", "hello"⟩, ⟨"assistant", "hi there"⟩],
    gemini_chat := none }

/-- Unfolding of `completeInOrder` on one completion event. -/
theorem completeInOrder_cons (results : List String) (j : Nat) (order : List Nat) :
    completeInOrder results (j :: order) =
      match results.get? j with
      | some r => (j, r) :: completeInOrder results order
      | none => completeInOrder results order := by
  unfold completeInOrder
  rw [List.filterMap_cons]
  cases results.get? j <;> rfl

/-- Looking up a task index among the completion events recovers that
task's value, whatever the completion order, provided the task completed. -/
theorem lookup_completeInOrder (results : List String) (i : Nat) (r : String)
    (hr : results.get? i = some r) (order : List Nat) (hi : i ∈ order) :
    (completeInOrder results order).lookup i = some r := by
  induction order with
  | nil => cases hi
  | cons j order' ih =>
    rw [completeInOrder_cons]
    by_cases hji : j = i
    · subst hji
      rw [hr]
      simp [List.lookup]
    · have hmem : i ∈ order' := by
        rcases List.mem_cons.mp hi with h | h
        · exact absurd h.symm hji
        · exact h
      have hbeq : (i == j) = false := beq_eq_false_iff_ne.mpr fun h => hji h.symm
      cases hj : results.get? j with
      | none => exact ih hmem
      | some rj =>
        simp only [List.lookup, hbeq]
        exact ih hmem

/-- Reading every position of a list through `get?` over its index range
yields the list itself (under `some`). -/
theorem map_get?_range (l : List String) :
    (List.range l.length).map l.get? = l.map some := by
  induction l with
  | nil => rfl
  | cons a l ih =>
    rw [List.length_cons, List.range_succ_eq_map, List.map_cons, List.map_map]
    have hcomp : ((a :: l).get? ∘ Nat.succ) = l.get? := rfl
    rw [hcomp, ih, List.map_cons]
    rfl

/-- The barrier join is deterministic and complete: whenever the
completion order is some permutation of the task indices, the joined
result is exactly the task values in task order. -/
theorem gatherJoin_perm (results : List String) (order : List Nat)
    (h : order.Perm (List.range results.length)) :
    gatherJoin results order = results.map some := by
  unfold gatherJoin
  rw [← map_get?_range results]
  apply List.map_congr_left
  intro i hi
  have hlt : i < results.length := List.mem_range.mp hi
  have hr : results.get? i = some (results.get ⟨i, hlt⟩) := List.get?_eq_get hlt
  rw [hr]
  exact lookup_completeInOrder results i _ hr order (h.mem_iff.mpr hi)

/-- When every Gemini send succeeds, the seeding loop replays exactly the
user turn contents of the history, in order, and reports no error. -/
theorem replayUsers_ok (send : List String → String → Except String String)
    (htot : ∀ mem msg, ∃ t, send mem msg = Except.ok t) (hist : List Msg) :
    ∀ mem : List String,
      replayUsers send hist mem = (mem ++ user_contents hist, none) := by
  induction hist with
  | nil =>
    intro mem
    simp [replayUsers, user_contents]
  | cons m rest ih =>
    intro mem
    by_cases hrole : (m.role == "user") = true
    · obtain ⟨t, ht⟩ := htot mem m.content
      simp only [replayUsers, hrole, if_true, ht]
      rw [ih (mem ++ [m.content])]
      simp [user_contents, List.filter_cons, hrole]
    · simp only [replayUsers, hrole]
      rw [if_neg (by simp [hrole]), ih mem]
      simp [user_contents, List.filter_cons, hrole]

/-- `get_gemini_response` never mutates the shared history: it only
touches the Gemini session. -/
theorem get_gemini_response_history (env : Env) (st : ChatState) (m : String) :
    (get_gemini_response env st m).2.chat_history = st.chat_history := by
  unfold get_gemini_response
  repeat' split
  all_goals rfl

/-- One `process_message` call appends exactly the user turn and the
assistant turn (carrying the displayed final response) to the history. -/
theorem pm_history_append (env : Env) (st : ChatState) (file : Option Json) (m : String) :
    (process_message env st file m).state.chat_history =
      st.chat_history ++
        [⟨"user", m⟩, ⟨"assistant", (process_message env st file m).final_response⟩] := by
  simp [process_message, get_gemini_response_history]

/-- One `chat_with_model` call either leaves the history untouched or
appends exactly the user turn and the assistant turn carrying the
returned text. -/
theorem chat_with_model_history (env : Env) (st : ChatState) (c : Nat) (m : String) :
    (chat_with_model env st c m).2.chat_history = st.chat_history ∨
    (chat_with_model env st c m).2.chat_history =
      st.chat_history ++ [⟨"user", m⟩, ⟨"assistant", (chat_with_model env st c m).1⟩] := by
  unfold chat_with_model
  repeat' split
  all_goals first
  | exact Or.inl rfl
  | exact Or.inr rfl

/-- Length of the alternating role pattern. -/
theorem alternating_roles_length (k : Nat) : (alternating_roles k).length = 2 * k := by
  induction k with
  | zero => rfl
  | succ n ih =>
    simp [alternating_roles, ih]
    omega

/-- Role sequence of a run of all-parallel exchanges: every exchange
appends one user/assistant pair. -/
theorem run_pm_roles (env : Env) (msgs : List String) :
    ∀ (st : ChatState) (file : Option Json),
      (run_pm env msgs (st, file)).1.chat_history.map Msg.role =
        st.chat_history.map Msg.role ++ alternating_roles msgs.length := by
  induction msgs with
  | nil =>
    intro st file
    simp [run_pm, alternating_roles]
  | cons m rest ih =>
    intro st file
    simp only [run_pm]
    rw [ih, pm_history_append]
    simp [alternating_roles, List.map_append]

/-- Role sequence of a run of single-select exchanges: each successful
exchange appends one user/assistant pair, unsuccessful ones append
nothing. -/
theorem run_mc_roles (env : Env) (inputs : List (Nat × String)) :
    ∀ st : ChatState,
      (run_mc env inputs st).chat_history.map Msg.role =
        st.chat_history.map Msg.role ++
          alternating_roles (count_mc_success env inputs st) := by
  induction inputs with
  | nil =>
    intro st
    simp [run_mc, count_mc_success, alternating_roles]
  | cons p rest ih =>
    obtain ⟨c, m⟩ := p
    intro st
    simp only [run_mc, count_mc_success]
    rcases chat_with_model_history env st c m with hsame | happ
    · rw [ih, hsame, if_pos rfl]
      simp
    · have hne : (chat_with_model env st c m).2.chat_history ≠ st.chat_history := by
        rw [happ]
        intro h
        have := congrArg List.length h
        simp at this
      rw [ih, if_neg hne, happ]
      simp [alternating_roles, List.map_append, Nat.add_comm]

/-- Decoding inverts encoding on the `model_responses` mapping. -/
theorem decodeResponses_encodeResponses (rs : List (String × String)) :
    decodeResponses (encodeResponses rs) = some rs := by
  induction rs with
  | nil => rfl
  | cons p rest ih =>
    obtain ⟨k, v⟩ := p
    simp [encodeResponses, decodeResponses] at ih ⊢
    simp [ih]

/-- Decoding inverts encoding on one chat log entry. -/
theorem decodeEntry_encodeEntry (e : ChatLogEntry) :
    decodeEntry (encodeEntry e) = some e := by
  cases e
  simp [encodeEntry, decodeEntry, decodeResponses_encodeResponses]

/-- Decoding inverts encoding on a list of chat log entries. -/
theorem decodeEntries_encode (l : List ChatLogEntry) :
    decodeEntries (l.map encodeEntry) = some l := by
  induction l with
  | nil => rfl
  | cons e rest ih => simp [decodeEntries, decodeEntry_encodeEntry, ih]

/-- Saving then loading reproduces the chat log exactly. -/
theorem load_save (entries : List ChatLogEntry) :
    load_chat_log (save_chat_log entries) = entries := by
  simp [load_chat_log, save_chat_log, encodeLog, decodeLog, decodeEntries_encode]

/-- Decomposition of the synthesis prompt chain around each of its five
embedded variable pieces. -/
theorem chain_decomp (c1 c2 c3 c4 c5 c6 u g d q o : String) :
    (∃ a b, c1 ++ u ++ c2 ++ g ++ c3 ++ d ++ c4 ++ q ++ c5 ++ o ++ c6 = a ++ u ++ b) ∧
    (∃ a b, c1 ++ u ++ c2 ++ g ++ c3 ++ d ++ c4 ++ q ++ c5 ++ o ++ c6 = a ++ g ++ b) ∧
    (∃ a b, c1 ++ u ++ c2 ++ g ++ c3 ++ d ++ c4 ++ q ++ c5 ++ o ++ c6 = a ++ d ++ b) ∧
    (∃ a b, c1 ++ u ++ c2 ++ g ++ c3 ++ d ++ c4 ++ q ++ c5 ++ o ++ c6 = a ++ q ++ b) ∧
    (∃ a b, c1 ++ u ++ c2 ++ g ++ c3 ++ d ++ c4 ++ q ++ c5 ++ o ++ c6 = a ++ o ++ b) := by
  refine ⟨⟨c1, c2 ++ g ++ c3 ++ d ++ c4 ++ q ++ c5 ++ o ++ c6, ?_⟩,
          ⟨c1 ++ u ++ c2, c3 ++ d ++ c4 ++ q ++ c5 ++ o ++ c6, ?_⟩,
          ⟨c1 ++ u ++ c2 ++ g ++ c3, c4 ++ q ++ c5 ++ o ++ c6, ?_⟩,
          ⟨c1 ++ u ++ c2 ++ g ++ c3 ++ d ++ c4, c5 ++ o ++ c6, ?_⟩,
          ⟨c1 ++ u ++ c2 ++ g ++ c3 ++ d ++ c4 ++ q ++ c5, c6, ?_⟩⟩ <;>
    simp [String.append_assoc]

/-- C1: for every user message, all-parallel dispatch launches the four
backend calls (gemini, deepseek, qwen, o1) and joins them with a full
barrier: for every completion order that is a permutation of the four
task indices, the join delivers every task value, keyed by task position;
the resulting mapping has exactly one entry per backend, in the fixed
backend-id order gemini, deepseek, qwen, o1, independent of completion
order; `process_message` logs exactly this mapping. -/
theorem dispatch_barrier_join_fixed_order (env : Env) (st : ChatState)
    (file : Option Json) (message : String) (order : List Nat)
    (h : order.Perm (List.range 4)) :
    gatherJoin (dispatch_tasks env st message) order =
      (dispatch_tasks env st message).map some ∧
    (dispatch env st message).1 =
      List.zip backend_ids (dispatch_tasks env st message) ∧
    (dispatch env st message).1.map Prod.fst = backend_ids ∧
    (dispatch env st message).1.length = 4 ∧
    (process_message env st file message).responses = (dispatch env st message).1 :=
  ⟨gatherJoin_perm _ order h, rfl, rfl, rfl, rfl⟩

/-- C1 witness: the barrier join at the concrete completion order
2, 0, 3, 1 in a fully available environment. -/
theorem dispatch_barrier_join_fixed_order_witness :
    gatherJoin (dispatch_tasks env0 st0 "hi") [2, 0, 3, 1] =
      (dispatch_tasks env0 st0 "hi").map some ∧
    (dispatch env0 st0 "hi").1 =
      List.zip backend_ids (dispatch_tasks env0 st0 "hi") ∧
    (dispatch env0 st0 "hi").1.map Prod.fst = backend_ids ∧
    (dispatch env0 st0 "hi").1.length = 4 ∧
    (process_message env0 st0 none "hi").responses = (dispatch env0 st0 "hi").1 :=
  dispatch_barrier_join_fixed_order env0 st0 none "hi" [2, 0, 3, 1] (by decide)

/-- C2: an unavailable backend's `send` returns its fixed marker without
attempting any network call: a `none` client carries no oracle at all,
and the Gemini marker is returned for every environment with availability
false, so no oracle is consulted.  Dispatch over a mixed set is a total
function (never raises); the unavailable backends' entries are the marker
texts and the available backend's entry is its genuine reply. -/
theorem dispatch_mixed_availability (env : Env) (st : ChatState)
    (message reply model : String) (hist : List Msg)
    (cr : String → List Msg → Except String String)
    (hg : env.gemini_model = false)
    (hor : env.openrouter_client = none)
    (hoa : env.openai_client = some cr)
    (hok : cr MODELS_o1 (build_messages st.chat_history message) = Except.ok reply) :
    get_gemini_response env st message = ("Gemini model not available", st) ∧
    get_openai_response none model message hist = model ++ " client not available" ∧
    (dispatch env st message).1 =
      [("gemini", "Gemini model not available"),
       ("deepseek", MODELS_deepseek ++ " client not available"),
       ("qwen", MODELS_qwen ++ " client not available"),
       ("o1", reply)] := by
  refine ⟨?_, rfl, ?_⟩
  · simp [get_gemini_response, hg]
  · simp [dispatch, dispatch_tasks, backend_ids, get_gemini_response, hg,
      get_openai_response, hor, hoa, hok]

/-- C2 witness: the mixed environment where only OpenAI initialized,
answering "four". -/
theorem dispatch_mixed_availability_witness :
    get_gemini_response env_mixed st0 "What is 2+2?" =
      ("Gemini model not available", st0) ∧
    get_openai_response none "o1" "What is 2+2?" [] = "o1" ++ " client not available" ∧
    (dispatch env_mixed st0 "What is 2+2?").1 =
      [("gemini", "Gemini model not available"),
       ("deepseek", MODELS_deepseek ++ " client not available"),
       ("qwen", MODELS_qwen ++ " client not available"),
       ("o1", "four")] :=
  dispatch_mixed_availability env_mixed st0 "What is 2+2?" "four" "o1" []
    (fun _ _ => Except.ok "four") rfl rfl rfl rfl

/-- C3: per all-parallel exchange the synthesizer runs exactly once: the
displayed final text of `process_message` is one `synthesize_responses`
value over the four dispatch results; the composite prompt contains the
verbatim user message and the verbatim four responses, whatever text they
hold (error and unavailable markers included, with no special-casing,
since the containment holds for all five strings); when the synthesis
client is unavailable the fixed "cannot synthesize" text is returned and
still appended to the history as the assistant turn instead of raising. -/
theorem synthesize_once_verbatim (env env2 : Env) (st st2 : ChatState)
    (file file2 : Option Json) (u g d q o : String)
    (hun : env.openai_client = none) :
    (∃ a b, synthesis_prompt u g d q o = a ++ u ++ b) ∧
    (∃ a b, synthesis_prompt u g d q o = a ++ g ++ b) ∧
    (∃ a b, synthesis_prompt u g d q o = a ++ d ++ b) ∧
    (∃ a b, synthesis_prompt u g d q o = a ++ q ++ b) ∧
    (∃ a b, synthesis_prompt u g d q o = a ++ o ++ b) ∧
    (process_message env2 st2 file2 u).final_response =
      synthesize_responses env2 u
        (get_gemini_response env2 st2 u).1
        (get_openai_response env2.openrouter_client MODELS_deepseek u st2.chat_history)
        (get_openai_response env2.openrouter_client MODELS_qwen u st2.chat_history)
        (get_openai_response env2.openai_client MODELS_o1 u st2.chat_history) ∧
    synthesize_responses env u g d q o = "Cannot synthesize: OpenAI O1 not available" ∧
    (process_message env st file u).final_response =
      "Cannot synthesize: OpenAI O1 not available" ∧
    (process_message env st file u).state.chat_history =
      st.chat_history ++
        [⟨"user", u⟩, ⟨"assistant", "Cannot synthesize: OpenAI O1 not available"⟩] := by
  obtain ⟨h1, h2, h3, h4, h5⟩ :=
    chain_decomp
      "As an AI synthesizer, analyze these AI responses to the user\x27s message and create a comprehensive, accurate response that combines the best insights from all sources.\n\nUser\x27s Message: "
      "\n\nResponses from different AI models:\nModel 1: "
      "\nModel 2: " "\nModel 3: " "\nModel 4: "
      "\n\nCreate a well-structured response that:\n1. Combines the unique insights from each model\n2. Resolves any contradictions between the responses\n3. Provides the most accurate and helpful information\n4. Maintains a natural, conversational tone\n\n"
      u g d q o
  have hfin : (process_message env st file u).final_response =
      "Cannot synthesize: OpenAI O1 not available" := by
    simp [process_message, synthesize_responses, hun]
  refine ⟨h1, h2, h3, h4, h5, rfl, ?_, hfin, ?_⟩
  · simp [synthesize_responses, hun]
  · rw [pm_history_append, hfin]

/-- C3 witness: concrete exchange with the synthesis client down. -/
theorem synthesize_once_verbatim_witness :
    (∃ a b, synthesis_prompt "msg" "rg" "rd" "rq" "ro" = a ++ "msg" ++ b) ∧
    (∃ a b, synthesis_prompt "msg" "rg" "rd" "rq" "ro" = a ++ "rg" ++ b) ∧
    (∃ a b, synthesis_prompt "msg" "rg" "rd" "rq" "ro" = a ++ "rd" ++ b) ∧
    (∃ a b, synthesis_prompt "msg" "rg" "rd" "rq" "ro" = a ++ "rq" ++ b) ∧
    (∃ a b, synthesis_prompt "msg" "rg" "rd" "rq" "ro" = a ++ "ro" ++ b) ∧
    (process_message env0 st1 none "msg").final_response =
      synthesize_responses env0 "msg"
        (get_gemini_response env0 st1 "msg").1
        (get_openai_response env0.openrouter_client MODELS_deepseek "msg" st1.chat_history)
        (get_openai_response env0.openrouter_client MODELS_qwen "msg" st1.chat_history)
        (get_openai_response env0.openai_client MODELS_o1 "msg" st1.chat_history) ∧
    synthesize_responses env_noopenai "msg" "rg" "rd" "rq" "ro" =
      "Cannot synthesize: OpenAI O1 not available" ∧
    (process_message env_noopenai st0 none "msg").final_response =
      "Cannot synthesize: OpenAI O1 not available" ∧
    (process_message env_noopenai st0 none "msg").state.chat_history =
      st0.chat_history ++
        [⟨"user", "msg"⟩, ⟨"assistant", "Cannot synthesize: OpenAI O1 not available"⟩] :=
  synthesize_once_verbatim env_noopenai env0 st0 st1 none none "msg" "rg" "rd" "rq" "ro" rfl

/-- C5: clearing from any state empties the history and discards the
Gemini session (back to uninitialized), so that the next Gemini send
re-seeds from the now-empty history, replaying zero prior user turns:
its session memory afterwards holds only the new message.  Availability
lives in `Env`, which `clear_command` does not receive, so the
initialized clients are untouched by construction. -/
theorem clear_resets (st : ChatState) (env : Env) (m r : String)
    (hg : env.gemini_model = true)
    (hok : env.gemini_send [] m = Except.ok r) :
    (clear_command st).chat_history = [] ∧
    (clear_command st).gemini_chat = none ∧
    replayUsers env.gemini_send (clear_command st).chat_history [] = ([], none) ∧
    get_gemini_response env (clear_command st) m =
      (r, { chat_history := [], gemini_chat := some ⟨[m]⟩ }) := by
  refine ⟨rfl, rfl, rfl, ?_⟩
  simp [get_gemini_response, clear_command, replayUsers, hg, hok]

/-- C5 witness: clearing a state that held a prior exchange and a live
session, then sending "hi". -/
theorem clear_resets_witness :
    (clear_command { chat_history := [⟨"user", "hello"⟩, ⟨"assistant", "hi there"⟩],
                     gemini_chat := some ⟨["hello"]⟩ }).chat_history = [] ∧
    (clear_command { chat_history := [⟨"user", "hello"⟩, ⟨"assistant", "hi there"⟩],
                     gemini_chat := some ⟨["hello"]⟩ }).gemini_chat = none ∧
    replayUsers env0.gemini_send
      (clear_command { chat_history := [⟨"user", "hello"⟩, ⟨"assistant", "hi there"⟩],
                       gemini_chat := some ⟨["hello"]⟩ }).chat_history [] = ([], none) ∧
    get_gemini_response env0
      (clear_command { chat_history := [⟨"user", "hello"⟩, ⟨"assistant", "hi there"⟩],
                       gemini_chat := some ⟨["hello"]⟩ }) "hi" =
      ("g-reply", { chat_history := [], gemini_chat := some ⟨["hi"]⟩ }) :=
  clear_resets
    { chat_history := [⟨"user", "hello"⟩, ⟨"assistant", "hi there"⟩],
      gemini_chat := some ⟨["hello"]⟩ } env0 "hi" "g-reply" rfl rfl

/-- C4 counterexample: in single-select mode an exchange whose selected
backend is unavailable does NOT append to the history: `chat_with_model`
with choice 2 and a `none` OpenAI client returns the fixed marker and
leaves the state untouched, so the history still has zero turns, not the
two turns the claim requires. -/
theorem exchange_append_counterexample :
    chat_with_model env_noopenai st0 2 "hi" = ("Selected model is not available.", st0) ∧
    (chat_with_model env_noopenai st0 2 "hi").2.chat_history.length = 0 :=
  ⟨rfl, rfl⟩

/-- C4 (amended): in all-parallel mode every completed exchange appends
the user turn then the assistant turn carrying the returned final text,
unconditionally.  In single-select mode the same append contract holds
whenever the selected backend is available (and, for the Gemini branch,
the send succeeds); but an unavailable selection returns the fixed
"Selected model is not available." marker without appending, and a raised
Gemini send returns an inline "Error: ..." text without appending.  No
other history mutation shape exists. -/
theorem exchange_append_contract
    (env envA envB envC envD : Env) (st stC stD : ChatState) (file : Option Json)
    (m e t : String) (c : Nat) (chC chD : GeminiChat)
    (cr cro : String → List Msg → Except String String)
    (hA : envA.openai_client = some cr)
    (hA2 : envA.openrouter_client = some cro)
    (hB : envB.openai_client = none)
    (hCg : envC.gemini_model = true) (hCs : stC.gemini_chat = some chC)
    (hCok : envC.gemini_send chC.sent m = Except.ok t)
    (hDg : envD.gemini_model = true) (hDs : stD.gemini_chat = some chD)
    (hDerr : envD.gemini_send chD.sent m = Except.error e) :
    (process_message env st file m).state.chat_history =
      st.chat_history ++
        [⟨"user", m⟩, ⟨"assistant", (process_message env st file m).final_response⟩] ∧
    chat_with_model envA st 2 m =
      (send_openai_message cr "o1" m st.chat_history,
       { st with chat_history := st.chat_history ++
           [⟨"user", m⟩, ⟨"assistant", send_openai_message cr "o1" m st.chat_history⟩] }) ∧
    chat_with_model envA st 3 m =
      (send_openai_message cro "deepseek/deepseek-r1" m st.chat_history,
       { st with chat_history := st.chat_history ++
           [⟨"user", m⟩,
            ⟨"assistant", send_openai_message cro "deepseek/deepseek-r1" m st.chat_history⟩] }) ∧
    chat_with_model envB st 2 m = ("Selected model is not available.", st) ∧
    chat_with_model envC stC 1 m =
      (t, { chat_history := stC.chat_history ++ [⟨"user", m⟩, ⟨"assistant", t⟩],
            gemini_chat := some ⟨chC.sent ++ [m]⟩ }) ∧
    chat_with_model envD stD 1 m = ("Error: " ++ e, stD) ∧
    ((chat_with_model env st c m).2.chat_history = st.chat_history ∨
     (chat_with_model env st c m).2.chat_history =
       st.chat_history ++ [⟨"user", m⟩, ⟨"assistant", (chat_with_model env st c m).1⟩]) := by
  refine ⟨pm_history_append env st file m, ?_, ?_, ?_, ?_, ?_,
    chat_with_model_history env st c m⟩
  · simp [chat_with_model, hA]
  · simp [chat_with_model, hA2]
  · simp [chat_with_model, hB]
  · simp [chat_with_model, hCg, hCs, hCok]
  · simp [chat_with_model, hDg, hDs, hDerr]

/-- C4 amended witness: the append contract at concrete environments:
available OpenAI and OpenRouter clients, an unavailable OpenAI client, a
succeeding and a failing Gemini session. -/
theorem exchange_append_contract_witness :
    (process_message env0 st1 none "hi").state.chat_history =
      st1.chat_history ++
        [⟨"user", "hi"⟩, ⟨"assistant", (process_message env0 st1 none "hi").final_response⟩] ∧
    chat_with_model env0 st1 2 "hi" =
      (send_openai_message (fun _ _ => Except.ok "a-reply") "o1" "hi" st1.chat_history,
       { st1 with chat_history := st1.chat_history ++
           [⟨"user", "hi"⟩,
            ⟨"assistant",
             send_openai_message (fun _ _ => Except.ok "a-reply") "o1" "hi" st1.chat_history⟩] }) ∧
    chat_with_model env0 st1 3 "hi" =
      (send_openai_message (fun _ _ => Except.ok "r-reply") "deepseek/deepseek-r1" "hi"
         st1.chat_history,
       { st1 with chat_history := st1.chat_history ++
           [⟨"user", "hi"⟩,
            ⟨"assistant",
             send_openai_message (fun _ _ => Except.ok "r-reply") "deepseek/deepseek-r1" "hi"
               st1.chat_history⟩] }) ∧
    chat_with_model env_noopenai st1 2 "hi" = ("Selected model is not available.", st1) ∧
    chat_with_model env0 { chat_history := [], gemini_chat := some ⟨["x"]⟩ } 1 "hi" =
      ("g-reply",
       { chat_history := [⟨"user", "hi"⟩, ⟨"assistant", "g-reply"⟩],
         gemini_chat := some ⟨["x", "hi"]⟩ }) ∧
    chat_with_model env_err { chat_history := [], gemini_chat := some ⟨[]⟩ } 1 "hi" =
      ("Error: " ++ "boom", { chat_history := [], gemini_chat := some ⟨[]⟩ }) ∧
    ((chat_with_model env0 st1 4 "hi").2.chat_history = st1.chat_history ∨
     (chat_with_model env0 st1 4 "hi").2.chat_history =
       st1.chat_history ++
         [⟨"user", "hi"⟩, ⟨"assistant", (chat_with_model env0 st1 4 "hi").1⟩]) :=
  exchange_append_contract env0 env0 env_noopenai env0 env_err st1
    { chat_history := [], gemini_chat := some ⟨["x"]⟩ }
    { chat_history := [], gemini_chat := some ⟨[]⟩ } none
    "hi" "boom" "g-reply" 4 ⟨["x"]⟩ ⟨[]⟩
    (fun _ _ => Except.ok "a-reply") (fun _ _ => Except.ok "r-reply")
    rfl rfl rfl rfl rfl rfl rfl rfl rfl

/-- C6: the Gemini seeding step is idempotent.  On the first send after
process start or after a clear (no session), provided the model is
available and the sends succeed, the call replays exactly the user turns
of the current history, in order and with replies discarded, and the
session then exists with memory `user_contents history ++ [message]`
while the shared history is untouched.  On any later send while the
session exists, nothing is replayed: the result and the session do not
depend on the current history at all, and the session memory grows only
by the one new message. -/
theorem gemini_seeding_idempotent (env : Env) (st stR1 stR2 : ChatState)
    (m : String) (c : GeminiChat)
    (hg : env.gemini_model = true)
    (htot : ∀ mem msg, ∃ t, env.gemini_send mem msg = Except.ok t)
    (hnone : st.gemini_chat = none)
    (hs1 : stR1.gemini_chat = some c) (hs2 : stR2.gemini_chat = some c) :
    (∃ t, get_gemini_response env st m =
       (t, { st with gemini_chat := some ⟨user_contents st.chat_history ++ [m]⟩ })) ∧
    (get_gemini_response env stR1 m).1 = (get_gemini_response env stR2 m).1 ∧
    (get_gemini_response env stR1 m).2.gemini_chat = some ⟨c.sent ++ [m]⟩ ∧
    (get_gemini_response env stR2 m).2.gemini_chat = some ⟨c.sent ++ [m]⟩ := by
  obtain ⟨t0, ht0⟩ := htot (user_contents st.chat_history) m
  obtain ⟨t1, ht1⟩ := htot c.sent m
  have hreplay := replayUsers_ok env.gemini_send htot st.chat_history []
  refine ⟨⟨t0, ?_⟩, ?_, ?_, ?_⟩
  · simp only [get_gemini_response, hg, hnone]
    simp [hreplay, ht0]
  · simp [get_gemini_response, hg, hs1, hs2, ht1]
  · simp [get_gemini_response, hg, hs1, ht1]
  · simp [get_gemini_response, hg, hs2, ht1]

/-- C6 witness: seeding over a history holding two user turns and one
assistant turn, and a no-op re-send on two states that share a session
but have different histories. -/
theorem gemini_seeding_idempotent_witness :
    (∃ t, get_gemini_response env0
        { chat_history := [⟨"user", "a"⟩, ⟨"assistant", "b"⟩, ⟨"user", "c"⟩],
          gemini_chat := none } "hi" =
      (t, { chat_history := [⟨"user", "a"⟩, ⟨"assistant", "b"⟩, ⟨"user", "c"⟩],
            gemini_chat := some ⟨user_contents
              [⟨"user", "a"⟩, ⟨"assistant", "b"⟩, ⟨"user", "c"⟩] ++ ["hi"]⟩ })) ∧
    (get_gemini_response env0
        { chat_history := [⟨"user", "x"⟩, ⟨"assistant", "y"⟩], gemini_chat := some ⟨["s"]⟩ }
        "hi").1 =
      (get_gemini_response env0 { chat_history := [], gemini_chat := some ⟨["s"]⟩ } "hi").1 ∧
    (get_gemini_response env0
        { chat_history := [⟨"user", "x"⟩, ⟨"assistant", "y"⟩], gemini_chat := some ⟨["s"]⟩ }
        "hi").2.gemini_chat = some ⟨["s"] ++ ["hi"]⟩ ∧
    (get_gemini_response env0
        { chat_history := [], gemini_chat := some ⟨["s"]⟩ } "hi").2.gemini_chat =
      some ⟨["s"] ++ ["hi"]⟩ :=
  gemini_seeding_idempotent env0
    { chat_history := [⟨"user", "a"⟩, ⟨"assistant", "b"⟩, ⟨"user", "c"⟩], gemini_chat := none }
    { chat_history := [⟨"user", "x"⟩, ⟨"assistant", "y"⟩], gemini_chat := some ⟨["s"]⟩ }
    { chat_history := [], gemini_chat := some ⟨["s"]⟩ }
    "hi" ⟨["s"]⟩ rfl (fun _ _ => ⟨"g-reply", rfl⟩) rfl rfl rfl

/-- C7: for every sequence of exchanges starting from a just-cleared
history, the history roles alternate user, assistant, user, assistant,
... and the length is exactly twice the number of successful exchanges:
in all-parallel mode every `process_message` call is a successful
exchange, so k equals the number of messages; in single-select mode
`count_mc_success` counts the exchanges that appended. -/
theorem history_alternation (env env2 : Env) (st st2 : ChatState) (file : Option Json)
    (msgs : List String) (inputs : List (Nat × String)) :
    (run_pm env msgs (clear_command st, file)).1.chat_history.map Msg.role =
      alternating_roles msgs.length ∧
    (run_pm env msgs (clear_command st, file)).1.chat_history.length = 2 * msgs.length ∧
    (run_mc env2 inputs (clear_command st2)).chat_history.map Msg.role =
      alternating_roles (count_mc_success env2 inputs (clear_command st2)) ∧
    (run_mc env2 inputs (clear_command st2)).chat_history.length =
      2 * count_mc_success env2 inputs (clear_command st2) := by
  have h1 := run_pm_roles env msgs (clear_command st) file
  have h2 := run_mc_roles env2 inputs (clear_command st2)
  simp only [clear_command, List.map_nil, List.nil_append] at h1 h2
  refine ⟨h1, ?_, h2, ?_⟩
  · have := congrArg List.length h1
    simpa [alternating_roles_length] using this
  · have := congrArg List.length h2
    simpa [alternating_roles_length] using this

/-- C8 counterexample: on a raised failure the frankenthought Gemini
adapter returns "Gemini Error: boom" — not the claimed exact form
"<model>: Error: <message>", which for this backend and message would be
"Gemini: Error: boom" — and multi-chat's `send_openai_message` returns
"Error: boom" with no model identification at all. -/
theorem send_error_form_counterexample :
    (get_gemini_response env_err st0 "hi").1 = "Gemini Error: boom" ∧
    "Gemini Error: boom" ≠ "Gemini: Error: boom" ∧
    send_openai_message (fun _ _ => Except.error "boom") "o1" "hi" [] = "Error: boom" ∧
    "Error: boom" ≠ "o1: Error: boom" := by
  refine ⟨rfl, by decide, rfl, by decide⟩

/-- C8 (amended): on any transport/API failure `send` catches the failure
and returns inline text rather than raising (the embedded adapters are
total functions): the frankenthought stateless adapter returns
"<model> Error: <message>" (a space, no colon, after the model id), the
frankenthought Gemini adapter returns "Gemini Error: <message>", and
multi-chat's `send_openai_message` returns "Error: <message>" with no
model prefix. -/
theorem send_error_inline (env : Env) (st : ChatState)
    (model m e : String) (hist : List Msg) (c : GeminiChat)
    (cr : String → List Msg → Except String String)
    (hgm : env.gemini_model = true)
    (hsc : st.gemini_chat = some c)
    (hge : env.gemini_send c.sent m = Except.error e)
    (hcr : cr model (build_messages hist m) = Except.error e) :
    (get_gemini_response env st m).1 = "Gemini Error: " ++ e ∧
    get_openai_response (some cr) model m hist = model ++ " Error: " ++ e ∧
    send_openai_message cr model m hist = "Error: " ++ e := by
  refine ⟨?_, ?_, ?_⟩
  · simp [get_gemini_response, hgm, hsc, hge]
  · simp [get_openai_response, hcr]
  · simp [send_openai_message, hcr]

/-- C8 amended witness: the three inline error texts at a concrete
failing oracle. -/
theorem send_error_inline_witness :
    (get_gemini_response env_err { chat_history := [], gemini_chat := some ⟨[]⟩ } "hi").1 =
      "Gemini Error: " ++ "boom" ∧
    get_openai_response (some fun _ _ => Except.error "boom") "o1" "hi" [] =
      "o1" ++ " Error: " ++ "boom" ∧
    send_openai_message (fun _ _ => Except.error "boom") "o1" "hi" [] =
      "Error: " ++ "boom" :=
  send_error_inline env_err { chat_history := [], gemini_chat := some ⟨[]⟩ }
    "o1" "hi" "boom" [] ⟨[]⟩ (fun _ _ => Except.error "boom") rfl rfl rfl rfl

/-- C9: the chat log round-trips: `load (save entries)` reproduces the
entries exactly, order and fields included; `save` writes the complete
serialized sequence (its output is the whole encoded log, independent of
any previous file content, which it does not receive); `load` of a
missing file is empty; `load` of a file that does not parse as a log is
empty. -/
theorem chat_log_round_trip (entries : List ChatLogEntry) (j : Json)
    (hbad : decodeLog j = none) :
    load_chat_log (save_chat_log entries) = entries ∧
    save_chat_log entries = some (encodeLog entries) ∧
    load_chat_log none = [] ∧
    load_chat_log (some j) = [] := by
  refine ⟨load_save entries, rfl, rfl, ?_⟩
  simp [load_chat_log, hbad]

/-- C9 witness: a concrete two-entry log round-trips, and a non-array
file content loads as empty. -/
theorem chat_log_round_trip_witness :
    load_chat_log (save_chat_log
      [{ timestamp := "t1", user_message := "u1",
         model_responses := [("Model 1", "r1"), ("Model 2", "r2")],
         final_response := "f1" },
       { timestamp := "t2", user_message := "u2",
         model_responses := [], final_response := "f2" }]) =
      [{ timestamp := "t1", user_message := "u1",
         model_responses := [("Model 1", "r1"), ("Model 2", "r2")],
         final_response := "f1" },
       { timestamp := "t2", user_message := "u2",
         model_responses := [], final_response := "f2" }] ∧
    save_chat_log
      [{ timestamp := "t1", user_message := "u1",
         model_responses := [("Model 1", "r1"), ("Model 2", "r2")],
         final_response := "f1" },
       { timestamp := "t2", user_message := "u2",
         model_responses := [], final_response := "f2" }] =
      some (encodeLog
        [{ timestamp := "t1", user_message := "u1",
           model_responses := [("Model 1", "r1"), ("Model 2", "r2")],
           final_response := "f1" },
         { timestamp := "t2", user_message := "u2",
           model_responses := [], final_response := "f2" }]) ∧
    load_chat_log none = [] ∧
    load_chat_log (some (Json.str "oops")) = [] :=
  chat_log_round_trip
    [{ timestamp := "t1", user_message := "u1",
       model_responses := [("Model 1", "r1"), ("Model 2", "r2")],
       final_response := "f1" },
     { timestamp := "t2", user_message := "u2",
       model_responses := [], final_response := "f2" }]
    (Json.str "oops") rfl

/-- C10: even with every backend and the synthesizer unavailable,
`process_message` still appends the user turn and the
"Cannot synthesize: OpenAI O1 not available" assistant turn, still
rewrites the log file with a new entry holding the four unavailable
markers, and nothing is rolled back: the error text stays in the
canonical history, so the request a later stateless call builds from that
history contains the error assistant turn. -/
theorem total_failure_still_appends (env : Env) (st : ChatState) (file : Option Json)
    (m m2 : String)
    (hg : env.gemini_model = false)
    (hoa : env.openai_client = none)
    (hor : env.openrouter_client = none) :
    (process_message env st file m).final_response =
      "Cannot synthesize: OpenAI O1 not available" ∧
    (process_message env st file m).state.chat_history =
      st.chat_history ++
        [⟨"user", m⟩, ⟨"assistant", "Cannot synthesize: OpenAI O1 not available"⟩] ∧
    (process_message env st file m).responses =
      [("gemini", "Gemini model not available"),
       ("deepseek", MODELS_deepseek ++ " client not available"),
       ("qwen", MODELS_qwen ++ " client not available"),
       ("o1", MODELS_o1 ++ " client not available")] ∧
    (process_message env st file m).file =
      some (encodeLog (load_chat_log file ++
        [{ timestamp := env.now, user_message := m,
           model_responses :=
             [("Model 1", "Gemini model not available"),
              ("Model 2", MODELS_deepseek ++ " client not available"),
              ("Model 3", MODELS_qwen ++ " client not available"),
              ("Model 4", MODELS_o1 ++ " client not available")],
           final_response := "Cannot synthesize: OpenAI O1 not available" }])) ∧
    Msg.mk "assistant" "Cannot synthesize: OpenAI O1 not available" ∈
      build_messages (process_message env st file m).state.chat_history m2 := by
  have hfin : (process_message env st file m).final_response =
      "Cannot synthesize: OpenAI O1 not available" := by
    simp [process_message, synthesize_responses, hoa]
  have hhist := pm_history_append env st file m
  rw [hfin] at hhist
  refine ⟨hfin, hhist, ?_, ?_, ?_⟩
  · simp [process_message, get_gemini_response, hg, get_openai_response, hoa, hor]
  · simp [process_message, save_chat_log, get_gemini_response, hg,
      get_openai_response, hoa, hor, synthesize_responses]
  · rw [hhist]
    simp [build_messages]

/-- C10 witness: the totally failed exchange at the all-down environment,
followed by the request built for a second message. -/
theorem total_failure_still_appends_witness :
    (process_message env_down st0 none "hi").final_response =
      "Cannot synthesize: OpenAI O1 not available" ∧
    (process_message env_down st0 none "hi").state.chat_history =
      st0.chat_history ++
        [⟨"user", "hi"⟩, ⟨"assistant", "Cannot synthesize: OpenAI O1 not available"⟩] ∧
    (process_message env_down st0 none "hi").responses =
      [("gemini", "Gemini model not available"),
       ("deepseek", MODELS_deepseek ++ " client not available"),
       ("qwen", MODELS_qwen ++ " client not available"),
       ("o1", MODELS_o1 ++ " client not available")] ∧
    (process_message env_down st0 none "hi").file =
      some (encodeLog (load_chat_log none ++
        [{ timestamp := env_down.now, user_message := "hi",
           model_responses :=
             [("Model 1", "Gemini model not available"),
              ("Model 2", MODELS_deepseek ++ " client not available"),
              ("Model 3", MODELS_qwen ++ " client not available"),
              ("Model 4", MODELS_o1 ++ " client not available")],
           final_response := "Cannot synthesize: OpenAI O1 not available" }])) ∧
    Msg.mk "assistant" "Cannot synthesize: OpenAI O1 not available" ∈
      build_messages (process_message env_down st0 none "hi").state.chat_history "next" :=
  total_failure_still_appends env_down st0 none "hi" "next" rfl rfl rfl

end FrankenThought
